import Mathlib

/-!
Verification of the Dataset Persistence & Configuration Layer.

Shallow embedding of:
- `src/utils/dataset_config.py` (the Dataset Registry: `DATASETS`, `get_dataset_config`),
- `src/utils/data_loader.py` (the Dataset Store: raw acquisition, processed-data
  persistence, split-assignment persistence), with the filesystem made an explicit
  state value and the remote pull an explicit oracle argument,
- `src/labs/lab0_trying_vibe_coding/problem.py` (`find_max_price`).

Tables (pandas DataFrames) are modelled as a column-name list plus a list of rows;
cell payloads are opaque tagged values, since the layer never inspects them.
The external parquet/csv codecs are modelled as preserving the stored table, which
is the contract the spec assigns them (a columnar format that "preserves column
data types exactly").
-/

namespace DataPipeline

/-- A single cell of a table. The persistence layer treats cell contents as
opaque, so an abstract tagged payload suffices. -/
inductive Cell where
  | str (s : String)
  | num (n : Int)
  deriving DecidableEq, Repr

/-- A pandas DataFrame: named columns and rows of cells (each row aligned with
`cols` positionally). `pd.DataFrame()` is `⟨[], []⟩`. -/
structure DataFrame where
  cols : List String
  rows : List (List Cell)
  deriving DecidableEq, Repr

/-- Column projection `df[[c1, ..., ck]]`: keeps the selected columns in the
given order, one output row per input row. -/
def DataFrame.select (df : DataFrame) (cs : List String) : DataFrame :=
  { cols := cs,
    rows := df.rows.map (fun r =>
      cs.map (fun c =>
        match df.cols.indexOf? c with
        | some i => r.getD i (Cell.str "")
        | none => Cell.str "")) }

/-- One configuration record of `DATASETS` in `src/utils/dataset_config.py`. -/
structure DatasetConfig where
  name : String
  path : String
  text_col : String
  title_col : String
  image_col : String
  image_embedding_col : String
  text_embedding_col : String
  label_cols : List String
  metadata_cols : List String
  visualization_col : String
  item_name : String
  deriving DecidableEq, Repr

/-- The `"tmdb"` entry of `DATASETS`. -/
def tmdb_config : DatasetConfig :=
  { name := "TMDB 5000 Movies",
    path := "data/processed/tmdb_embedded.parquet",
    text_col := "overview",
    title_col := "title",
    image_col := "local_poster_path",
    image_embedding_col := "image_embedding",
    text_embedding_col := "embedding",
    label_cols := ["genres"],
    metadata_cols := ["title", "overview", "genres", "release_date", "vote_average"],
    visualization_col := "genres",
    item_name := "Movie" }

/-- The `"airbnb"` entry of `DATASETS`. -/
def airbnb_config : DatasetConfig :=
  { name := "NYC Airbnb Listings",
    path := "data/processed/airbnb_embedded.parquet",
    text_col := "description",
    title_col := "name",
    image_col := "local_picture_path",
    image_embedding_col := "image_embedding",
    text_embedding_col := "embedding",
    label_cols := ["neighbourhood", "neighbourhood_group", "property_type", "room_type"],
    metadata_cols := ["name", "description", "neighbourhood", "price", "review_scores_rating"],
    visualization_col := "neighbourhood",
    item_name := "Listing" }

/-- The `DATASETS` dictionary, as lookup: dictionary `.get` without default. -/
def DATASETS (dataset_name : String) : Option DatasetConfig :=
  if dataset_name = "tmdb" then some tmdb_config
  else if dataset_name = "airbnb" then some airbnb_config
  else none

/-- `get_dataset_config` in `src/utils/dataset_config.py`:
`DATASETS.get(dataset_name, DATASETS["tmdb"])`. -/
def get_dataset_config (dataset_name : String) : DatasetConfig :=
  (DATASETS dataset_name).getD tmdb_config

/-! ### String helpers (Python semantics, structural so the kernel can evaluate) -/

/-- Fuel-driven core of Python `str.replace` over character lists: replaces
non-overlapping occurrences of `pat` left to right. The fuel bounds the number
of steps; each step consumes at least one input character when `pat` is
non-empty, so fuel equal to the input length suffices. -/
def replaceFuel (pat rep : List Char) : Nat → List Char → List Char
  | 0, s => s
  | _ + 1, [] => []
  | fuel + 1, c :: rest =>
    if pat.isPrefixOf (c :: rest) then
      rep ++ replaceFuel pat rep fuel (List.drop pat.length (c :: rest))
    else
      c :: replaceFuel pat rep fuel rest

/-- Python `s.replace(pat, rep)` for non-empty `pat` (the only way the source
uses it). -/
def pyReplace (s pat rep : String) : String :=
  if pat.data = [] then s
  else String.mk (replaceFuel pat.data rep.data s.data.length s.data)

/-- Python `os.path.dirname`: everything before the final slash, `""` when
there is no slash. -/
def dirname (p : String) : String :=
  String.mk (((p.data.reverse.dropWhile (fun c => c ≠ '/')).drop 1).reverse)

/-! ### Filesystem state -/

/-- Explicit filesystem state: an association list from path to stored table
(later writes shadow earlier ones) and the list of directories known to exist. -/
structure FS where
  files : List (String × DataFrame)
  dirs : List String
  deriving DecidableEq, Repr

/-- Reads the table stored at `p`, or `none` when no file exists there. -/
def FS.read (fs : FS) (p : String) : Option DataFrame :=
  (fs.files.find? (fun e => e.1 = p)).map Prod.snd

/-- Writes `d` at `p`, unconditionally overwriting any existing file there. -/
def FS.write (fs : FS) (p : String) (d : DataFrame) : FS :=
  { fs with files := (p, d) :: fs.files }

/-- `os.makedirs(p, exist_ok=True)`: ensures the directory `p` exists. -/
def FS.makedirs (fs : FS) (p : String) : FS :=
  { fs with dirs := p :: fs.dirs }

/-! ### Dataset Store (`src/utils/data_loader.py`) -/

/-- Module-level constant for the raw data path. -/
def RAW_DATA_PATH : String := "data/raw/tmdb_5000_movies.csv"

/-- Outcome of the remote pull (`load_dataset(...)` followed by `to_pandas`),
treated as an external oracle: it either yields a table or raises. -/
inductive RemoteResult where
  | ok (df : DataFrame)
  | failed (e : String)
  deriving DecidableEq, Repr

/-- Result of `load_tmdb_raw`: the filesystem after the call, the returned
table, and the failure reported through `st.error` when the pull raised. -/
structure RawLoadResult where
  fs : FS
  df : DataFrame
  reported_error : Option String
  deriving DecidableEq, Repr

/-- `load_tmdb_raw`: cache-first; on a cache miss, pull from the remote oracle,
cache and return; when the pull raises, report and return an empty table. -/
def load_tmdb_raw (fs : FS) (remote : RemoteResult) : RawLoadResult :=
  match fs.read RAW_DATA_PATH with
  | some df => ⟨fs, df, none⟩
  | none =>
    match remote with
    | RemoteResult.ok df =>
      let fs := fs.makedirs (dirname RAW_DATA_PATH)
      ⟨fs.write RAW_DATA_PATH df, df, none⟩
    | RemoteResult.failed e =>
      ⟨fs, ⟨[], []⟩, some ("Failed to download dataset: " ++ e)⟩

/-- `save_processed_data(df, dataset_name="tmdb")`: resolve the configured
path, ensure its directory exists, write the table in parquet. -/
def save_processed_data (fs : FS) (df : DataFrame)
    (dataset_name : String := "tmdb") : FS :=
  let config := get_dataset_config dataset_name
  let path := config.path
  let fs := fs.makedirs (dirname path)
  fs.write path df

/-- `load_processed_data(dataset_name="tmdb")`: return the stored table, or
`None` (here `none`) to signal "not processed yet". -/
def load_processed_data (fs : FS) (dataset_name : String := "tmdb") :
    Option DataFrame :=
  let config := get_dataset_config dataset_name
  let path := config.path
  fs.read path

/-- `get_splits_path(dataset_name)`:
`config["path"].replace(".parquet", "_splits.csv")`. -/
def get_splits_path (dataset_name : String) : String :=
  let config := get_dataset_config dataset_name
  let base_path := config.path
  pyReplace base_path ".parquet" "_splits.csv"

/-- Result of `save_splits`: the filesystem after the call and whether the
missing-column error message was printed. -/
structure SaveSplitsResult where
  fs : FS
  errored : Bool
  deriving DecidableEq, Repr

/-- `save_splits(df, dataset_name="tmdb")`: ensure the directory exists, then
write the `id`/`split` projection when both columns are present, else report
an error and write nothing. -/
def save_splits (fs : FS) (df : DataFrame)
    (dataset_name : String := "tmdb") : SaveSplitsResult :=
  let path := get_splits_path dataset_name
  let fs := fs.makedirs (dirname path)
  if "id" ∈ df.cols ∧ "split" ∈ df.cols then
    ⟨fs.write path (df.select ["id", "split"]), false⟩
  else
    ⟨fs, true⟩

/-- `load_splits(dataset_name="tmdb")`: return the stored split table, or
`none` when the file is absent. -/
def load_splits (fs : FS) (dataset_name : String := "tmdb") :
    Option DataFrame :=
  let path := get_splits_path dataset_name
  fs.read path

/-! ### Lab 0 (`src/labs/lab0_trying_vibe_coding/problem.py`) -/

/-- `find_max_price(prices)`: Python `max(prices)`, which raises on an empty
sequence (modelled as `none`) and otherwise folds binary `max` over the list. -/
def find_max_price (prices : List Int) : Option Int :=
  match prices with
  | [] => none
  | p :: ps => some (ps.foldl max p)

/-! ## Helper lemmas -/

theorem foldl_max_mem (ps : List Int) (a : Int) :
    ps.foldl max a = a ∨ ps.foldl max a ∈ ps := by
  induction ps generalizing a with
  | nil => exact Or.inl rfl
  | cons p ps ih =>
    rw [List.foldl_cons]
    rcases ih (max a p) with h | h
    · rw [h]
      rcases max_choice a p with h2 | h2
      · exact Or.inl h2
      · exact Or.inr (by rw [h2]; exact List.mem_cons_self p ps)
    · exact Or.inr (List.mem_cons_of_mem p h)

theorem le_foldl_max_init (ps : List Int) (a : Int) : a ≤ ps.foldl max a := by
  induction ps generalizing a with
  | nil => exact le_refl a
  | cons p ps ih =>
    rw [List.foldl_cons]
    exact le_trans (le_max_left a p) (ih (max a p))

theorem le_foldl_max_mem (ps : List Int) :
    ∀ (a x : Int), x ∈ ps → x ≤ ps.foldl max a := by
  induction ps with
  | nil => intro a x hx; cases hx
  | cons p ps ih =>
    intro a x hx
    rw [List.foldl_cons]
    rcases List.mem_cons.mp hx with h | h
    · subst h
      exact le_trans (le_max_right a x) (le_foldl_max_init ps (max a x))
    · exact ih (max a p) x h

/-- Sample raw table used by witnesses. -/
def sampleRawDf : DataFrame := ⟨["title"], [[Cell.str "Avatar"]]⟩

/-- Filesystem already holding the raw TMDB file, used by witnesses. -/
def fsWithRaw : FS := ⟨[(RAW_DATA_PATH, sampleRawDf)], []⟩

/-- The empty filesystem, used by witnesses. -/
def emptyFS : FS := ⟨[], []⟩

/-- Sample table with `id` and `split` columns, used by witnesses. -/
def sampleSplitDf : DataFrame :=
  ⟨["id", "split", "title"],
   [[Cell.num 1, Cell.str "train", Cell.str "Avatar"],
    [Cell.num 2, Cell.str "test", Cell.str "Spectre"]]⟩

/-- Sample table lacking the `split` column, used by witnesses. -/
def sampleNoSplitDf : DataFrame :=
  ⟨["id", "title"], [[Cell.num 1, Cell.str "Avatar"]]⟩

/-! ## Claims -/

/-- C1: `get_dataset_config` is total: for every identifier it returns one of
the registry's fully-populated records, and for every identifier not present
in `DATASETS` it returns exactly the default (`"tmdb"`) record. -/
theorem get_dataset_config_total_and_fallback (s : String) :
    (get_dataset_config s = tmdb_config ∨ get_dataset_config s = airbnb_config) ∧
    (DATASETS s = none → get_dataset_config s = tmdb_config) := by
  constructor
  · unfold get_dataset_config DATASETS
    by_cases h1 : s = "tmdb"
    · rw [if_pos h1]; exact Or.inl rfl
    · rw [if_neg h1]
      by_cases h2 : s = "airbnb"
      · rw [if_pos h2]; exact Or.inr rfl
      · rw [if_neg h2]; exact Or.inl rfl
  · intro h
    unfold get_dataset_config
    rw [h]
    rfl

/-- C1 witness: `"books"` is not in the registry and resolves to the tmdb
record. -/
theorem get_dataset_config_fallback_books :
    DATASETS "books" = none ∧ get_dataset_config "books" = tmdb_config :=
  ⟨by decide, (get_dataset_config_total_and_fallback "books").2 (by decide)⟩

/-- C2 evaluation: the code derives the split path for `"tmdb"` as
`data/processed/tmdb_embedded_splits.csv` (replacing only `.parquet`), not
`data/processed/tmdb_splits.csv` as the code comment and the spec state. -/
theorem get_splits_path_tmdb_actual :
    get_splits_path "tmdb" = "data/processed/tmdb_embedded_splits.csv" ∧
    get_splits_path "tmdb" ≠ "data/processed/tmdb_splits.csv" := by
  constructor
  · decide
  · decide

/-- C3: for every input table lacking `id` or lacking `split`, `save_splits`
reports an error and writes no file: the file map is unchanged at every path,
so no split file is created and an existing one is untouched. -/
theorem save_splits_missing_column_no_write (fs : FS) (df : DataFrame)
    (name : String) (h : "id" ∉ df.cols ∨ "split" ∉ df.cols) :
    (save_splits fs df name).errored = true ∧
    (save_splits fs df name).fs.files = fs.files ∧
    (∀ p, (save_splits fs df name).fs.read p = fs.read p) := by
  have hc : ¬("id" ∈ df.cols ∧ "split" ∈ df.cols) := by tauto
  refine ⟨?_, ?_, ?_⟩ <;> simp [save_splits, hc, FS.makedirs, FS.read]

/-- C3 witness: saving a table with columns `[id, title]` errors and leaves an
existing split file in place. -/
theorem save_splits_missing_column_no_write_witness :
    ("id" ∉ sampleNoSplitDf.cols ∨ "split" ∉ sampleNoSplitDf.cols) ∧
    ((save_splits emptyFS sampleNoSplitDf "tmdb").errored = true ∧
     (save_splits emptyFS sampleNoSplitDf "tmdb").fs.files = emptyFS.files ∧
     (∀ p, (save_splits emptyFS sampleNoSplitDf "tmdb").fs.read p = emptyFS.read p)) :=
  ⟨by decide,
   save_splits_missing_column_no_write emptyFS sampleNoSplitDf "tmdb" (by decide)⟩

/-- C4: for every input table containing `id` and `split`, `save_splits`
writes to the derived split path exactly the projection onto `["id", "split"]`
(all other columns discarded), with one row per input row. -/
theorem save_splits_writes_id_split_projection (fs : FS) (df : DataFrame)
    (name : String) (hid : "id" ∈ df.cols) (hsplit : "split" ∈ df.cols) :
    (save_splits fs df name).errored = false ∧
    (save_splits fs df name).fs.read (get_splits_path name) =
      some (df.select ["id", "split"]) ∧
    (df.select ["id", "split"]).cols = ["id", "split"] ∧
    (df.select ["id", "split"]).rows.length = df.rows.length := by
  have hc : ("id" ∈ df.cols ∧ "split" ∈ df.cols) := ⟨hid, hsplit⟩
  refine ⟨?_, ?_, rfl, ?_⟩
  · simp [save_splits, hc]
  · simp [save_splits, hc, FS.read, FS.write, FS.makedirs, List.find?]
  · simp [DataFrame.select]

/-- C4 witness: saving a table with columns `[id, split, title]` stores the
two-column projection with both rows. -/
theorem save_splits_writes_id_split_projection_witness :
    "id" ∈ sampleSplitDf.cols ∧ "split" ∈ sampleSplitDf.cols ∧
    ((save_splits emptyFS sampleSplitDf "tmdb").errored = false ∧
     (save_splits emptyFS sampleSplitDf "tmdb").fs.read (get_splits_path "tmdb") =
       some (sampleSplitDf.select ["id", "split"]) ∧
     (sampleSplitDf.select ["id", "split"]).cols = ["id", "split"] ∧
     (sampleSplitDf.select ["id", "split"]).rows.length = sampleSplitDf.rows.length) :=
  ⟨by decide, by decide,
   save_splits_writes_id_split_projection emptyFS sampleSplitDf "tmdb"
     (by decide) (by decide)⟩

/-- C5: when the processed file (resp. the split file) is absent,
`load_processed_data` (resp. `load_splits`) returns the `none` sentinel rather
than an error, and the sentinel differs from every table, in particular from
every zero-row table. -/
theorem load_absent_returns_sentinel (fs : FS) (name : String)
    (hp : fs.read (get_dataset_config name).path = none)
    (hs : fs.read (get_splits_path name) = none) :
    load_processed_data fs name = none ∧
    load_splits fs name = none ∧
    (∀ df : DataFrame, load_processed_data fs name ≠ some df) ∧
    (∀ df : DataFrame, df.rows = [] → load_splits fs name ≠ some df) := by
  refine ⟨?_, ?_, ?_, ?_⟩
  · simpa [load_processed_data] using hp
  · simpa [load_splits] using hs
  · intro df
    simp [load_processed_data, hp]
  · intro df _
    simp [load_splits, hs]

/-- C5 witness: on the empty filesystem both loaders return the sentinel for
`"tmdb"`. -/
theorem load_absent_returns_sentinel_witness :
    emptyFS.read (get_dataset_config "tmdb").path = none ∧
    emptyFS.read (get_splits_path "tmdb") = none ∧
    (load_processed_data emptyFS "tmdb" = none ∧
     load_splits emptyFS "tmdb" = none ∧
     (∀ df : DataFrame, load_processed_data emptyFS "tmdb" ≠ some df) ∧
     (∀ df : DataFrame, df.rows = [] → load_splits emptyFS "tmdb" ≠ some df)) :=
  ⟨rfl, rfl, load_absent_returns_sentinel emptyFS "tmdb" rfl rfl⟩

/-- C6: `load_tmdb_raw` is cache-first and total: when the raw file exists the
call returns its contents with the filesystem untouched, no failure reported,
and the result does not depend on the remote oracle (no network access); when
the file is absent and the pull fails, the failure is reported through the
non-fatal channel and the empty table is returned. -/
theorem load_tmdb_raw_cache_first_and_soft_failure (fs : FS) :
    (∀ (r : RemoteResult) (cached : DataFrame),
       fs.read RAW_DATA_PATH = some cached →
       load_tmdb_raw fs r = ⟨fs, cached, none⟩) ∧
    (∀ e : String,
       fs.read RAW_DATA_PATH = none →
       load_tmdb_raw fs (RemoteResult.failed e) =
         ⟨fs, ⟨[], []⟩, some ("Failed to download dataset: " ++ e)⟩) := by
  constructor
  · intro r cached hc
    simp [load_tmdb_raw, hc]
  · intro e hc
    simp [load_tmdb_raw, hc]

/-- C6 witness: with the raw file cached the pull outcome is irrelevant; on an
empty filesystem a failed pull is reported and yields the empty table. -/
theorem load_tmdb_raw_cache_first_and_soft_failure_witness :
    (fsWithRaw.read RAW_DATA_PATH = some sampleRawDf ∧
     load_tmdb_raw fsWithRaw (RemoteResult.failed "net down") =
       ⟨fsWithRaw, sampleRawDf, none⟩) ∧
    (emptyFS.read RAW_DATA_PATH = none ∧
     load_tmdb_raw emptyFS (RemoteResult.failed "net down") =
       ⟨emptyFS, ⟨[], []⟩, some "Failed to download dataset: net down"⟩) :=
  ⟨⟨by decide,
    (load_tmdb_raw_cache_first_and_soft_failure fsWithRaw).1
      (RemoteResult.failed "net down") sampleRawDf (by decide)⟩,
   ⟨rfl,
    (load_tmdb_raw_cache_first_and_soft_failure emptyFS).2 "net down" rfl⟩⟩

/-- C7: saving a processed table and loading it back for the same identifier,
with no intervening write, yields a table with identical columns, identical
row count, and identical cell values. -/
theorem save_then_load_processed_roundtrip (fs : FS) (df : DataFrame)
    (name : String) :
    ∃ out, load_processed_data (save_processed_data fs df name) name = some out ∧
      out.cols = df.cols ∧ out.rows.length = df.rows.length ∧ out.rows = df.rows := by
  refine ⟨df, ?_, rfl, rfl, rfl⟩
  simp [load_processed_data, save_processed_data, FS.read, FS.write, FS.makedirs]

/-- C8: for every non-empty price list, `find_max_price` returns a value that
is present in the input and is greater than or equal to every input value. -/
theorem find_max_price_correct (prices : List Int) (h : prices ≠ []) :
    ∃ m, find_max_price prices = some m ∧ m ∈ prices ∧ ∀ x ∈ prices, x ≤ m := by
  match prices with
  | [] => exact absurd rfl h
  | p :: ps =>
    refine ⟨ps.foldl max p, rfl, ?_, ?_⟩
    · rcases foldl_max_mem ps p with h1 | h1
      · rw [h1]; exact List.mem_cons_self p ps
      · exact List.mem_cons_of_mem p h1
    · intro x hx
      rcases List.mem_cons.mp hx with h1 | h1
      · subst h1; exact le_foldl_max_init ps x
      · exact le_foldl_max_mem ps p x h1

/-- C8 witness: on `[3, 1, 2]` the maximum is returned, is a member, and
bounds every element. -/
theorem find_max_price_correct_witness :
    ([3, 1, 2] : List Int) ≠ [] ∧
    (∃ m, find_max_price [3, 1, 2] = some m ∧ m ∈ ([3, 1, 2] : List Int) ∧
      ∀ x ∈ ([3, 1, 2] : List Int), x ≤ m) :=
  ⟨by decide, find_max_price_correct [3, 1, 2] (by decide)⟩

/-- C9: each Dataset Store operation taking a dataset identifier defaults it
to `"tmdb"`: the call without an identifier equals the call with `"tmdb"`. -/
theorem store_ops_default_to_tmdb (fs : FS) (df : DataFrame) :
    save_processed_data fs df = save_processed_data fs df "tmdb" ∧
    load_processed_data fs = load_processed_data fs "tmdb" ∧
    save_splits fs df = save_splits fs df "tmdb" ∧
    load_splits fs = load_splits fs "tmdb" :=
  ⟨rfl, rfl, rfl, rfl⟩

/-- C10: for every input table (in particular on the missing-column error path
where nothing is written), `save_splits` creates the containing directory of
the derived split path before the column check, so it exists after the call. -/
theorem save_splits_creates_parent_dir (fs : FS) (df : DataFrame)
    (name : String) :
    dirname (get_splits_path name) ∈ (save_splits fs df name).fs.dirs := by
  by_cases hc : ("id" ∈ df.cols ∧ "split" ∈ df.cols) <;>
    simp [save_splits, hc, FS.makedirs, FS.write]

end DataPipeline
